import Mathlib

set_option linter.unusedVariables false

/-!
Verification of the confidential transfer-with-fee instruction layer
(`zk-token-sdk/src/instruction/transfer_with_fee.rs`).

Machine integers are modelled as `Nat` with explicit `% 2^w` where the Rust
code can wrap or truncate.  Collaborator primitives that live outside this
file's source (Pedersen commitments, twisted-ElGamal encryption, the merlin
transcript, the sigma/range proof engines, fixed-size encode/decode) are
modelled from the spec, as documented on each definition.
-/

/-- `u64::MAX + 1`: modulus of 64-bit unsigned arithmetic. -/

def U64_MOD : Nat := 2 ^ 64

/-- `u32::MAX + 1`: modulus of 32-bit unsigned arithmetic. -/

def U32_MOD : Nat := 2 ^ 32

/-- `const FEE_DENOMINATOR: u64 = 10000;` -/

def FEE_DENOMINATOR : Nat := 10000

/-- `const TWO_32: u64 = 1 << 32` (from `instruction/mod.rs`, used by
`decrypt_amount`). -/

def TWO_32 : Nat := 2 ^ 32

/-- Rust `u64::checked_sub`: `some (a - b)` when no underflow, else `none`. -/

def u64_checked_sub (a b : Nat) : Option Nat :=
  if b ≤ a then some (a - b) else none

/-- Rust release-mode wrapping `u64` subtraction `a - b` (mod `2^64`);
equals the exact difference whenever `b ≤ a < 2^64`. -/

def u64_wrapping_sub (a b : Nat) : Nat :=
  (a + U64_MOD - b) % U64_MOD

/--
`fn calculate_fee(transfer_amount: u64, fee_rate_basis_points: u16) -> (u64, u64)`.

The 128-bit product `fee_scaled` is exact (`u64 * u16 < 2^80 < 2^128`), so no
`% 2^128` is needed on it.  The `as u64` casts on the quotient and remainder
are modelled by `% U64_MOD` (truncating cast), and `fee + 1` by the wrapping
`% U64_MOD` of release-mode addition.
-/

def calculate_fee (transfer_amount fee_rate_basis_points : Nat) : Nat × Nat :=
  let fee_scaled := transfer_amount * fee_rate_basis_points
  let fee := (fee_scaled / FEE_DENOMINATOR) % U64_MOD
  let rem := (fee_scaled % FEE_DENOMINATOR) % U64_MOD
  if rem = 0 then (fee, rem) else ((fee + 1) % U64_MOD, rem)

/-- `subtle::ConstantTimeGreater` for `u64`: `u64::ct_gt(&a, &b)` is the
choice bit of `a > b`; modelled by its boolean value (the constant-time
property itself is a timing property outside a shallow value embedding). -/

def ct_gt (a b : Nat) : Bool := decide (b < a)

/-- `subtle::ConditionallySelectable::conditional_select(&a, &b, choice)`:
returns `a` when the choice bit is 0 and `b` when it is 1. -/

def conditional_select (a b : Nat) (choice : Bool) : Nat :=
  if choice then b else a

/-- The fee-capping snippet of `TransferWithFeeData::new` (lines 117-119):
`below_max = u64::ct_gt(&maximum_fee, &fee_amount)`;
`fee_to_encrypt = u64::conditional_select(&maximum_fee, &fee_amount, below_max)`. -/

def fee_to_encrypt_value (fee_amount maximum_fee : Nat) : Nat :=
  let below_max := ct_gt maximum_fee fee_amount
  conditional_select maximum_fee fee_amount below_max

-- Basic facts about `calculate_fee`, shared by several claims.

/-- Closed form of `calculate_fee` with the always-redundant cast on the
remainder (`< 10000 < 2^64`) removed. -/

def ell : Nat := 2 ^ 252 + 27742317777372353535851937790883648493

/-- `curve25519_dalek::scalar::Scalar`, the scalar field. -/

abbrev Scalar := ZMod ell

/-- A ristretto group element, as coordinates over the Pedersen generator
pair `(G, H)`. -/

abbrev GroupElt := Scalar × Scalar

/-- Group addition (collaborator algebra). -/

def gadd (x y : GroupElt) : GroupElt := (x.1 + y.1, x.2 + y.2)

/-- Group subtraction (collaborator algebra). -/

def gsub (x y : GroupElt) : GroupElt := (x.1 - y.1, x.2 - y.2)

/-- Scalar multiplication of a group element (collaborator algebra). -/

def gsmul (s : Scalar) (x : GroupElt) : GroupElt := (s * x.1, s * x.2)

/-- Modelled from the spec: `Pedersen::new(amount)` draws a random opening
`r` and returns the commitment `amount•G + r•H` together with `r`.  The
randomness is passed explicitly (explicit state passing of the RNG). -/

def Pedersen.new (amount : Nat) (opening : Scalar) : GroupElt × Scalar :=
  (((amount : Scalar), opening), opening)

/-- Modelled from the spec: `Pedersen::encode(amount)` commits with the
zero opening (`amount•G`). -/

def Pedersen.encode (amount : Nat) : GroupElt := ((amount : Scalar), 0)

/-- `COMMITMENT_FEE_DENOMINATOR = Pedersen::encode(FEE_DENOMINATOR)`
(the lazily-initialized global of the source). -/

def COMMITMENT_FEE_DENOMINATOR : GroupElt := Pedersen.encode FEE_DENOMINATOR

/-- Modelled from the spec (§4.1): homomorphic recombination
`combine_commitments(lo, hi) = lo + 2^32 • hi` (from `instruction/mod.rs`,
not under `src/`). -/

def combine_u32_commitments (comm_lo comm_hi : GroupElt) : GroupElt :=
  gadd comm_lo (gsmul (TWO_32 : Scalar) comm_hi)

/-- Modelled from the spec (§4.1): the same recombination over openings. -/

def combine_u32_openings (opening_lo opening_hi : Scalar) : Scalar :=
  opening_lo + (TWO_32 : Scalar) * opening_hi

/-- A twisted-ElGamal ciphertext: a Pedersen commitment plus one decrypt
handle (collaborator data model, spec §3). -/

structure ElGamalCiphertext where
  commitment : GroupElt
  handle : GroupElt
deriving DecidableEq

/-- Ciphertext subtraction (homomorphic collaborator algebra). -/

def ElGamalCiphertext.sub (a b : ElGamalCiphertext) : ElGamalCiphertext :=
  ⟨gsub a.commitment b.commitment, gsub a.handle b.handle⟩

/-- Modelled from the spec (§4.1): homomorphic recombination of the two
limb ciphertexts, `lo + 2^32 • hi` componentwise. -/

def combine_u32_ciphertexts (lo hi : ElGamalCiphertext) : ElGamalCiphertext :=
  ⟨combine_u32_commitments lo.commitment hi.commitment,
   gadd lo.handle (gsmul (TWO_32 : Scalar) hi.handle)⟩

/-- Modelled from the spec: `ElGamalPubkey::decrypt_handle(opening)` is the
handle `opening • pubkey`. -/

def decrypt_handle (pubkey : GroupElt) (opening : Scalar) : GroupElt :=
  gsmul opening pubkey

/-- `fn split_u64_into_u32(amount: u64) -> (u32, u32)` (from
`instruction/mod.rs`, spec §4.1): `lo = amount mod 2^32`,
`hi = amount div 2^32`. -/

def split_u64_into_u32 (amount : Nat) : Nat × Nat :=
  (amount % U32_MOD, amount / U32_MOD)

/-- Modelled from the spec (§3): per-limb amount encryption — one Pedersen
commitment plus decrypt handles for source, dest and auditor (the
`TransferAmountEncryption` of `instruction/transfer.rs`, not under `src/`). -/

structure TransferAmountEncryption where
  commitment : GroupElt
  source : GroupElt
  dest : GroupElt
  auditor : GroupElt
deriving DecidableEq

/-- Modelled from the spec: `TransferAmountEncryption::new` commits to the
limb amount and attaches handles for the three viewing parties; the opening
is drawn at random and returned (passed explicitly here). -/

def TransferAmountEncryption.new (amount : Nat)
    (pubkey_source pubkey_dest pubkey_auditor : GroupElt) (opening : Scalar) :
    TransferAmountEncryption × Scalar :=
  (⟨((amount : Scalar), opening),
    decrypt_handle pubkey_source opening,
    decrypt_handle pubkey_dest opening,
    decrypt_handle pubkey_auditor opening⟩, opening)

/-- `struct FeeEncryption { commitment, dest, fee_collector }`. -/

structure FeeEncryption where
  commitment : GroupElt
  dest : GroupElt
  fee_collector : GroupElt
deriving DecidableEq

/-- `FeeEncryption::new(amount, pubkey_dest, pubkey_fee_collector)`:
a Pedersen commitment to the amount plus handles for dest and fee
collector; the Pedersen opening is drawn inside and returned (passed
explicitly here). -/

def FeeEncryption.new (amount : Nat)
    (pubkey_dest pubkey_fee_collector : GroupElt) (opening : Scalar) :
    FeeEncryption × Scalar :=
  let p := Pedersen.new amount opening
  (⟨p.1, decrypt_handle pubkey_dest p.2, decrypt_handle pubkey_fee_collector p.2⟩, p.2)

/-- `struct TransferWithFeePubkeys { source, dest, auditor, fee_collector }`. -/

structure TransferWithFeePubkeys where
  source : GroupElt
  dest : GroupElt
  auditor : GroupElt
  fee_collector : GroupElt
deriving DecidableEq

/-- `fn compute_delta_commitment_and_opening` (prover side):
`commitment_delta = commitment_fee * DENOMINATOR −
combine_u32_commitments(commitment_lo, commitment_hi) * rate`, and the same
linear combination over openings. -/

def compute_delta_commitment_and_opening
    (commitment_lo : GroupElt) (opening_lo : Scalar)
    (commitment_hi : GroupElt) (opening_hi : Scalar)
    (commitment_fee : GroupElt) (opening_fee : Scalar)
    (fee_rate_basis_points : Nat) : GroupElt × Scalar :=
  let fee_rate_scalar : Scalar := (fee_rate_basis_points : Scalar)
  let commitment_delta :=
    gsub (gsmul (FEE_DENOMINATOR : Scalar) commitment_fee)
      (gsmul fee_rate_scalar (combine_u32_commitments commitment_lo commitment_hi))
  let opening_delta :=
    opening_fee * (FEE_DENOMINATOR : Scalar)
      - combine_u32_openings opening_lo opening_hi * fee_rate_scalar
  (commitment_delta, opening_delta)

/-- `fn compute_delta_commitment` (verifier side): the same linear
combination recomputed from public commitments only. -/

def compute_delta_commitment
    (commitment_lo commitment_hi commitment_fee : GroupElt)
    (fee_rate_basis_points : Nat) : GroupElt :=
  let fee_rate_scalar : Scalar := (fee_rate_basis_points : Scalar)
  gsub (gsmul (FEE_DENOMINATOR : Scalar) commitment_fee)
    (gsmul fee_rate_scalar (combine_u32_commitments commitment_lo commitment_hi))

/-- C6: for all limb commitments, fee commitment, openings and rate, the
commitment component of the prover-side `compute_delta_commitment_and_opening`
equals the verifier-side `compute_delta_commitment` on the same three
commitments and rate, and both equal
`commitment_fee * DENOMINATOR − combine_commitments(lo, hi) * rate`; the
verifier recomputes this from public commitments (it is not a field of the
`TransferWithFeeProof` bundle). -/

inductive ProofError where
  | Generation
  | Verification
deriving DecidableEq

/-- `instruction::Role`: the three viewing parties of a transfer. -/

inductive Role where
  | Source
  | Dest
  | Auditor
deriving DecidableEq

/-- One entry of a merlin transcript: the domain separator of
`Transcript::new`, or one `append_message(label, data)`. -/

inductive TranscriptEntry where
  | dom (label : String)
  | msg (label : String) (data : List Nat)
deriving DecidableEq

/-- Modelled from the spec: the Fiat-Shamir transcript is an ordered,
append-only chain of labelled messages; the hash chain itself is a
collaborator, so the transcript is modelled by the exact sequence of
appended items (two transcripts are bit-identical iff the sequences are
equal). -/

abbrev Transcript := List TranscriptEntry

/-- `merlin::Transcript::new(label)`. -/

def Transcript.new (label : String) : Transcript := [TranscriptEntry.dom label]

/-- `Transcript::append_message(label, data)`. -/

def Transcript.append_message (t : Transcript) (label : String) (data : List Nat) :
    Transcript :=
  t ++ [TranscriptEntry.msg label data]

/-- `TranscriptProtocol::append_commitment(label, commitment)`: appends the
commitment's pod bytes under the label. -/

def Transcript.append_commitment (t : Transcript) (label : String)
    (commitment_bytes : List Nat) : Transcript :=
  t.append_message label commitment_bytes

/-- Modelled from the spec (§6): a pod value is a fixed-size byte buffer
together with its decode result; decoding fails exactly when the bytes are
not a canonical encoding, and per spec §7 a decode failure surfaces as
`ProofError::Verification`. -/

structure Pod (α : Type) where
  bytes : List Nat
  decoded : Option α
deriving DecidableEq

/-- The `try_into()?` step on a pod: the decoded value, or
`ProofError::Verification` on decode failure (spec §7). -/

def pod_try_into {α : Type} (p : Pod α) : Except ProofError α :=
  match p.decoded with
  | some x => Except.ok x
  | none => Except.error ProofError.Verification

/-- Modelled from the spec: injective stand-in for the canonical 32-byte
encoding of a group element (encode/decode is collaborator-owned). -/

def group_to_bytes (g : GroupElt) : List Nat := [g.1.val, g.2.val]

/-- `TransferAmountEncryption::to_bytes`: commitment ‖ source ‖ dest ‖
auditor (from `instruction/transfer.rs`, not under `src/`). -/

def TransferAmountEncryption.to_bytes (c : TransferAmountEncryption) : List Nat :=
  group_to_bytes c.commitment ++ group_to_bytes c.source ++
    group_to_bytes c.dest ++ group_to_bytes c.auditor

/-- `FeeEncryption::to_bytes`: commitment ‖ dest ‖ fee_collector. -/

def FeeEncryption.to_bytes (c : FeeEncryption) : List Nat :=
  group_to_bytes c.commitment ++ group_to_bytes c.dest ++
    group_to_bytes c.fee_collector

/-- Modelled from the spec (§6): ciphertext encoding, commitment ‖ handle. -/

def ElGamalCiphertext.to_bytes (c : ElGamalCiphertext) : List Nat :=
  group_to_bytes c.commitment ++ group_to_bytes c.handle

/-- `pod::TransferWithFeePubkeys::new`: source ‖ dest ‖ auditor ‖
fee_collector. -/

def pod_transfer_with_fee_pubkeys_bytes
    (source dest auditor fee_collector : GroupElt) : List Nat :=
  group_to_bytes source ++ group_to_bytes dest ++
    group_to_bytes auditor ++ group_to_bytes fee_collector

/-- `struct FeeParameters { fee_rate_basis_points: u16, maximum_fee: u64 }`. -/

structure FeeParameters where
  fee_rate_basis_points : Nat
  maximum_fee : Nat
deriving DecidableEq

/-!
## Sub-proof collaborators

The five sigma/range proof engines are external collaborators (spec §1:
interfaces only).  Prover outputs are opaque tokens — except the range
proof, whose model records the public value/bit-length vectors it was asked
to prove, which claim C9 is about.  Verifier behaviour is universally
quantified in the claims about `TransferWithFeeProof::verify`.
-/

/-- Modelled from the spec: opaque `EqualityProof` produced by the
collaborator prover. -/

structure EqualityProof where
  tok : Unit
deriving DecidableEq

/-- `EqualityProof::new` (black-box prover). -/

def EqualityProof.new (keypair_source_public : GroupElt)
    (ciphertext_new_source : ElGamalCiphertext) (source_new_balance : Nat)
    (opening_source : Scalar) (transcript : Transcript) : EqualityProof := ⟨()⟩

/-- Modelled from the spec: opaque `AggregatedValidityProof`. -/

structure AggregatedValidityProof where
  tok : Unit
deriving DecidableEq

/-- `AggregatedValidityProof::new` (black-box prover). -/

def AggregatedValidityProof.new (pubkey_dest pubkey_auditor : GroupElt)
    (transfer_amount_lo transfer_amount_hi : Nat)
    (opening_lo opening_hi : Scalar) (transcript : Transcript) :
    AggregatedValidityProof := ⟨()⟩

/-- Modelled from the spec: opaque `FeeSigmaProof`. -/

structure FeeSigmaProof where
  tok : Unit
deriving DecidableEq

/-- `FeeSigmaProof::new` (black-box prover). -/

def FeeSigmaProof.new (fee_amount : Nat) (commitment_fee : GroupElt)
    (opening_fee : Scalar) (delta_fee : Nat) (commitment_delta : GroupElt)
    (opening_delta : Scalar) (commitment_claimed : GroupElt)
    (opening_claimed : Scalar) (maximum_fee : Nat) (transcript : Transcript) :
    FeeSigmaProof := ⟨()⟩

/-- Modelled from the spec: opaque `ValidityProof`. -/

structure ValidityProof where
  tok : Unit
deriving DecidableEq

/-- `ValidityProof::new` (black-box prover). -/

def ValidityProof.new (pubkey_dest pubkey_fee_collector : GroupElt)
    (fee_amount : Nat) (opening_fee : Scalar) (transcript : Transcript) :
    ValidityProof := ⟨()⟩

/-- Modelled from the spec: a range proof object; the model records the
public amount and bit-length vectors handed to the black-box prover. -/

structure RangeProof where
  amounts : List Nat
  bit_lengths : List Nat
deriving DecidableEq

/-- `RangeProof::new(amounts, bit_lengths, openings, transcript)`
(black-box prover; the model keeps its public inputs). -/

def RangeProof.new (amounts : List Nat) (bit_lengths : List Nat)
    (openings : List Scalar) (transcript : Transcript) : RangeProof :=
  ⟨amounts, bit_lengths⟩

/-- `struct TransferWithFeeProof`: the transmitted six-part proof bundle —
two standalone commitments plus the five sub-proofs, each stored in its
pod encoding.  (Note: `commitment_delta` is not a field.) -/

structure TransferWithFeeProof where
  commitment_new_source : Pod GroupElt
  commitment_claimed : Pod GroupElt
  equality_proof : Pod EqualityProof
  ciphertext_amount_validity_proof : Pod AggregatedValidityProof
  fee_sigma_proof : Pod FeeSigmaProof
  ciphertext_fee_validity_proof : Pod ValidityProof
  range_proof : Pod RangeProof
deriving DecidableEq

/-- `TransferWithFeeProof::transcript_new`: domain separator `"FeeProof"`,
then the four pod byte buffers under their fixed labels, in order. -/

def TransferWithFeeProof.transcript_new
    (transfer_with_fee_pubkeys ciphertext_lo ciphertext_hi ciphertext_fee :
      List Nat) : Transcript :=
  ((((Transcript.new "FeeProof").append_message
      "transfer-with-fee-pubkeys" transfer_with_fee_pubkeys).append_message
      "ciphertext-lo" ciphertext_lo).append_message
      "ciphertext-hi" ciphertext_hi).append_message
      "ciphertext-fee" ciphertext_fee

/-!
## Proof bundle: generation and verification
-/

/-- `TransferWithFeeProof::new` (generation, §4.4).  The Pedersen openings
drawn inside (`opening_source`, `opening_claimed`) are passed explicitly as
`o_source`, `o_claimed`; sub-proof provers are the black-box collaborator
models above. -/

def TransferWithFeeProof.new
    (transfer_amount_lo : Nat) (ciphertext_lo : TransferAmountEncryption)
    (opening_lo : Scalar)
    (transfer_amount_hi : Nat) (ciphertext_hi : TransferAmountEncryption)
    (opening_hi : Scalar)
    (keypair_source_public pubkey_dest pubkey_auditor : GroupElt)
    (source_new_balance : Nat) (ciphertext_new_source : ElGamalCiphertext)
    (fee_amount : Nat) (ciphertext_fee : FeeEncryption) (opening_fee : Scalar)
    (delta_fee : Nat)
    (pubkey_fee_collector : GroupElt)
    (fee_parameters : FeeParameters)
    (o_source o_claimed : Scalar)
    (transcript : Transcript) : TransferWithFeeProof :=
  let pns := Pedersen.new source_new_balance o_source
  let commitment_new_source := pns.1
  let opening_source := pns.2
  let pcl := Pedersen.new delta_fee o_claimed
  let commitment_claimed := pcl.1
  let opening_claimed := pcl.2
  let pod_commitment_new_source : Pod GroupElt :=
    ⟨group_to_bytes commitment_new_source, some commitment_new_source⟩
  let pod_commitment_claimed : Pod GroupElt :=
    ⟨group_to_bytes commitment_claimed, some commitment_claimed⟩
  let transcript := transcript.append_commitment "commitment-new-source"
    pod_commitment_new_source.bytes
  let transcript := transcript.append_commitment "commitment-claimed"
    pod_commitment_claimed.bytes
  let equality_proof := EqualityProof.new keypair_source_public
    ciphertext_new_source source_new_balance opening_source transcript
  let ciphertext_amount_validity_proof := AggregatedValidityProof.new
    pubkey_dest pubkey_auditor transfer_amount_lo transfer_amount_hi
    opening_lo opening_hi transcript
  let pdelta := compute_delta_commitment_and_opening
    ciphertext_lo.commitment opening_lo ciphertext_hi.commitment opening_hi
    ciphertext_fee.commitment opening_fee fee_parameters.fee_rate_basis_points
  let commitment_delta := pdelta.1
  let opening_delta := pdelta.2
  let fee_sigma_proof := FeeSigmaProof.new fee_amount ciphertext_fee.commitment
    opening_fee delta_fee commitment_delta opening_delta commitment_claimed
    opening_claimed fee_parameters.maximum_fee transcript
  let ciphertext_fee_validity_proof := ValidityProof.new pubkey_dest
    pubkey_fee_collector fee_amount opening_fee transcript
  let opening_claimed_negated := (0 : Scalar) - opening_claimed
  let range_proof := RangeProof.new
    [source_new_balance, transfer_amount_lo, transfer_amount_hi, delta_fee,
     u64_wrapping_sub FEE_DENOMINATOR delta_fee]
    [64, 32, 32, 64, 64]
    [opening_source, opening_lo, opening_hi, opening_claimed,
     opening_claimed_negated]
    transcript
  { commitment_new_source := pod_commitment_new_source
    commitment_claimed := pod_commitment_claimed
    equality_proof := ⟨[], some equality_proof⟩
    ciphertext_amount_validity_proof := ⟨[], some ciphertext_amount_validity_proof⟩
    fee_sigma_proof := ⟨[], some fee_sigma_proof⟩
    ciphertext_fee_validity_proof := ⟨[], some ciphertext_fee_validity_proof⟩
    range_proof := ⟨[], some range_proof⟩ }

/-- The two `append_commitment` calls at the head of
`TransferWithFeeProof::verify` (lines 395-396). -/

def verify_initial_transcript (self : TransferWithFeeProof)
    (transcript : Transcript) : Transcript :=
  (transcript.append_commitment "commitment-new-source"
      self.commitment_new_source.bytes).append_commitment "commitment-claimed"
    self.commitment_claimed.bytes

/-- `TransferWithFeeProof::verify` (§4.5).  The five collaborator verifiers
are passed as functions on the decoded sub-proof, its public inputs and the
running transcript, each returning the extended transcript on success; `?`
propagation is the nested `match`.  Pod decodes (`try_into()?`) fail with
`ProofError::Verification`. -/

def TransferWithFeeProof.verify
    (self : TransferWithFeeProof)
    (ciphertext_lo ciphertext_hi : TransferAmountEncryption)
    (transfer_with_fee_pubkeys : TransferWithFeePubkeys)
    (new_spendable_ciphertext : ElGamalCiphertext)
    (ciphertext_fee : FeeEncryption)
    (fee_parameters : FeeParameters)
    (equality_verify : EqualityProof → GroupElt → ElGamalCiphertext →
      GroupElt → Transcript → Except ProofError Transcript)
    (validity_verify : AggregatedValidityProof → GroupElt → GroupElt →
      GroupElt → GroupElt → GroupElt → GroupElt → GroupElt → GroupElt →
      Transcript → Except ProofError Transcript)
    (fee_sigma_verify : FeeSigmaProof → GroupElt → GroupElt → GroupElt →
      Nat → Transcript → Except ProofError Transcript)
    (fee_validity_verify : ValidityProof → GroupElt → GroupElt → GroupElt →
      GroupElt → GroupElt → Transcript → Except ProofError Transcript)
    (range_verify : RangeProof → List GroupElt → List Nat → Transcript →
      Except ProofError Transcript)
    (transcript : Transcript) : Except ProofError Unit :=
  let transcript := verify_initial_transcript self transcript
  match pod_try_into self.commitment_new_source with
  | Except.error e => Except.error e
  | Except.ok commitment_new_source =>
    match pod_try_into self.commitment_claimed with
    | Except.error e => Except.error e
    | Except.ok commitment_claimed =>
      match pod_try_into self.equality_proof with
      | Except.error e => Except.error e
      | Except.ok equality_proof =>
        match pod_try_into self.ciphertext_amount_validity_proof with
        | Except.error e => Except.error e
        | Except.ok ciphertext_amount_validity_proof =>
          match pod_try_into self.fee_sigma_proof with
          | Except.error e => Except.error e
          | Except.ok fee_sigma_proof =>
            match pod_try_into self.ciphertext_fee_validity_proof with
            | Except.error e => Except.error e
            | Except.ok ciphertext_fee_validity_proof =>
              match pod_try_into self.range_proof with
              | Except.error e => Except.error e
              | Except.ok range_proof =>
                match equality_verify equality_proof
                    transfer_with_fee_pubkeys.source new_spendable_ciphertext
                    commitment_new_source transcript with
                | Except.error e => Except.error e
                | Except.ok transcript2 =>
                  match validity_verify ciphertext_amount_validity_proof
                      transfer_with_fee_pubkeys.dest
                      transfer_with_fee_pubkeys.auditor
                      ciphertext_lo.commitment ciphertext_hi.commitment
                      ciphertext_lo.dest ciphertext_hi.dest
                      ciphertext_lo.auditor ciphertext_hi.auditor
                      transcript2 with
                  | Except.error e => Except.error e
                  | Except.ok transcript3 =>
                    match fee_sigma_verify fee_sigma_proof
                        ciphertext_fee.commitment
                        (compute_delta_commitment ciphertext_lo.commitment
                          ciphertext_hi.commitment ciphertext_fee.commitment
                          fee_parameters.fee_rate_basis_points)
                        commitment_claimed fee_parameters.maximum_fee
                        transcript3 with
                    | Except.error e => Except.error e
                    | Except.ok transcript4 =>
                      match fee_validity_verify ciphertext_fee_validity_proof
                          ciphertext_fee.commitment
                          transfer_with_fee_pubkeys.dest
                          transfer_with_fee_pubkeys.fee_collector
                          ciphertext_fee.dest ciphertext_fee.fee_collector
                          transcript4 with
                      | Except.error e => Except.error e
                      | Except.ok transcript5 =>
                        match range_verify range_proof
                            [commitment_new_source, ciphertext_lo.commitment,
                             ciphertext_hi.commitment, commitment_claimed,
                             gsub COMMITMENT_FEE_DENOMINATOR commitment_claimed]
                            [64, 32, 32, 64, 64] transcript5 with
                        | Except.error e => Except.error e
                        | Except.ok _ => Except.ok ()

/-!
## Envelope
-/

/-- `struct TransferWithFeeData`: the full instruction payload. -/

structure TransferWithFeeData where
  ciphertext_lo : Pod TransferAmountEncryption
  ciphertext_hi : Pod TransferAmountEncryption
  transfer_with_fee_pubkeys : Pod TransferWithFeePubkeys
  ciphertext_new_source : Pod ElGamalCiphertext
  ciphertext_fee : Pod FeeEncryption
  fee_parameters : FeeParameters
  proof : TransferWithFeeProof
deriving DecidableEq

/-- `TransferWithFeeData::new`.  The five Pedersen/ElGamal openings drawn
inside (for the lo limb, hi limb, fee encryption, new-balance commitment and
claimed commitment) are passed explicitly as `o_lo o_hi o_fee o_source
o_claimed`; the source keypair is represented by its public key (the secret
key is only consumed by the black-box equality prover). -/

def TransferWithFeeData.new
    (transfer_amount : Nat)
    (spendable_balance : Nat) (ciphertext_old_source : ElGamalCiphertext)
    (keypair_source_public : GroupElt)
    (pubkey_dest pubkey_auditor : GroupElt)
    (fee_parameters : FeeParameters)
    (pubkey_fee_collector : GroupElt)
    (o_lo o_hi o_fee o_source o_claimed : Scalar) :
    Except ProofError TransferWithFeeData :=
  let amount_lo := (split_u64_into_u32 transfer_amount).1
  let amount_hi := (split_u64_into_u32 transfer_amount).2
  let elo := TransferAmountEncryption.new amount_lo keypair_source_public
    pubkey_dest pubkey_auditor o_lo
  let ciphertext_lo := elo.1
  let opening_lo := elo.2
  let ehi := TransferAmountEncryption.new amount_hi keypair_source_public
    pubkey_dest pubkey_auditor o_hi
  let ciphertext_hi := ehi.1
  let opening_hi := ehi.2
  match u64_checked_sub spendable_balance transfer_amount with
  | none => Except.error ProofError.Generation
  | some new_spendable_balance =>
    let transfer_amount_lo_source : ElGamalCiphertext :=
      ⟨ciphertext_lo.commitment, ciphertext_lo.source⟩
    let transfer_amount_hi_source : ElGamalCiphertext :=
      ⟨ciphertext_hi.commitment, ciphertext_hi.source⟩
    let ciphertext_new_source := ciphertext_old_source.sub
      (combine_u32_ciphertexts transfer_amount_lo_source
        transfer_amount_hi_source)
    let fee_pair := calculate_fee transfer_amount
      fee_parameters.fee_rate_basis_points
    let fee_amount := fee_pair.1
    let delta_fee := fee_pair.2
    let below_max := ct_gt fee_parameters.maximum_fee fee_amount
    let fee_to_encrypt := conditional_select fee_parameters.maximum_fee
      fee_amount below_max
    let efee := FeeEncryption.new fee_to_encrypt pubkey_dest
      pubkey_fee_collector o_fee
    let ciphertext_fee := efee.1
    let opening_fee := efee.2
    let pod_transfer_with_fee_pubkeys : Pod TransferWithFeePubkeys :=
      ⟨pod_transfer_with_fee_pubkeys_bytes keypair_source_public pubkey_dest
        pubkey_auditor pubkey_fee_collector,
       some ⟨keypair_source_public, pubkey_dest, pubkey_auditor,
        pubkey_fee_collector⟩⟩
    let pod_ciphertext_lo : Pod TransferAmountEncryption :=
      ⟨ciphertext_lo.to_bytes, some ciphertext_lo⟩
    let pod_ciphertext_hi : Pod TransferAmountEncryption :=
      ⟨ciphertext_hi.to_bytes, some ciphertext_hi⟩
    let pod_ciphertext_new_source : Pod ElGamalCiphertext :=
      ⟨ciphertext_new_source.to_bytes, some ciphertext_new_source⟩
    let pod_ciphertext_fee : Pod FeeEncryption :=
      ⟨ciphertext_fee.to_bytes, some ciphertext_fee⟩
    let transcript := TransferWithFeeProof.transcript_new
      pod_transfer_with_fee_pubkeys.bytes pod_ciphertext_lo.bytes
      pod_ciphertext_hi.bytes pod_ciphertext_fee.bytes
    let proof := TransferWithFeeProof.new amount_lo ciphertext_lo opening_lo
      amount_hi ciphertext_hi opening_hi keypair_source_public pubkey_dest
      pubkey_auditor new_spendable_balance ciphertext_new_source fee_amount
      ciphertext_fee opening_fee delta_fee pubkey_fee_collector
      fee_parameters o_source o_claimed transcript
    Except.ok
      { ciphertext_lo := pod_ciphertext_lo
        ciphertext_hi := pod_ciphertext_hi
        transfer_with_fee_pubkeys := pod_transfer_with_fee_pubkeys
        ciphertext_new_source := pod_ciphertext_new_source
        ciphertext_fee := pod_ciphertext_fee
        fee_parameters := fee_parameters
        proof := proof }

/-- The transcript construction of generation (`TransferWithFeeData::new`
lines 126-142), as a function of the same inputs: the four pod byte buffers
are recomputed exactly as `new` computes them, then fed to
`transcript_new`. -/

def TransferWithFeeData.new_transcript
    (transfer_amount : Nat)
    (spendable_balance : Nat) (ciphertext_old_source : ElGamalCiphertext)
    (keypair_source_public : GroupElt)
    (pubkey_dest pubkey_auditor : GroupElt)
    (fee_parameters : FeeParameters)
    (pubkey_fee_collector : GroupElt)
    (o_lo o_hi o_fee o_source o_claimed : Scalar) : Transcript :=
  let amount_lo := (split_u64_into_u32 transfer_amount).1
  let amount_hi := (split_u64_into_u32 transfer_amount).2
  let ciphertext_lo := (TransferAmountEncryption.new amount_lo
    keypair_source_public pubkey_dest pubkey_auditor o_lo).1
  let ciphertext_hi := (TransferAmountEncryption.new amount_hi
    keypair_source_public pubkey_dest pubkey_auditor o_hi).1
  let fee_amount := (calculate_fee transfer_amount
    fee_parameters.fee_rate_basis_points).1
  let below_max := ct_gt fee_parameters.maximum_fee fee_amount
  let fee_to_encrypt := conditional_select fee_parameters.maximum_fee
    fee_amount below_max
  let ciphertext_fee := (FeeEncryption.new fee_to_encrypt pubkey_dest
    pubkey_fee_collector o_fee).1
  TransferWithFeeProof.transcript_new
    (pod_transfer_with_fee_pubkeys_bytes keypair_source_public pubkey_dest
      pubkey_auditor pubkey_fee_collector)
    ciphertext_lo.to_bytes ciphertext_hi.to_bytes ciphertext_fee.to_bytes

/-- The transcript construction of verification (`TransferWithFeeData::verify`
lines 224-229): `transcript_new` on the stored pod byte buffers. -/

def TransferWithFeeData.verify_transcript (self : TransferWithFeeData) :
    Transcript :=
  TransferWithFeeProof.transcript_new self.transfer_with_fee_pubkeys.bytes
    self.ciphertext_lo.bytes self.ciphertext_hi.bytes self.ciphertext_fee.bytes

/-- The role-indexed handle selection of `ciphertext_lo`/`ciphertext_hi`
(`TransferWithFeeData`, lines 172-176 and 188-192). -/

def handle_get (role : Role) (source dest auditor : GroupElt) : GroupElt :=
  match role with
  | Role.Source => source
  | Role.Dest => dest
  | Role.Auditor => auditor

/-- `TransferWithFeeData::ciphertext_lo(role)`: decode the lo pod, pick the
role's handle. -/

def TransferWithFeeData.ciphertext_lo_with_role (self : TransferWithFeeData)
    (role : Role) : Except ProofError ElGamalCiphertext :=
  match pod_try_into self.ciphertext_lo with
  | Except.error e => Except.error e
  | Except.ok ciphertext_lo =>
    Except.ok ⟨ciphertext_lo.commitment,
      handle_get role ciphertext_lo.source ciphertext_lo.dest
        ciphertext_lo.auditor⟩

/-- `TransferWithFeeData::ciphertext_hi(role)`: decode the hi pod, pick the
role's handle. -/

def TransferWithFeeData.ciphertext_hi_with_role (self : TransferWithFeeData)
    (role : Role) : Except ProofError ElGamalCiphertext :=
  match pod_try_into self.ciphertext_hi with
  | Except.error e => Except.error e
  | Except.ok ciphertext_hi =>
    Except.ok ⟨ciphertext_hi.commitment,
      handle_get role ciphertext_hi.source ciphertext_hi.dest
        ciphertext_hi.auditor⟩

/-- `TransferWithFeeData::decrypt_amount(role, sk)`.  The collaborator
`decrypt_u32_online(sk, &DECODE_U32_PRECOMPUTATION_FOR_G)` — a bounded
discrete-log search for a fixed secret key and lookup table — is modelled
from the spec as an oracle from ciphertexts to `Option Nat`. -/

def TransferWithFeeData.decrypt_amount (self : TransferWithFeeData)
    (role : Role) (decrypt_u32_online : ElGamalCiphertext → Option Nat) :
    Except ProofError Nat :=
  match self.ciphertext_lo_with_role role with
  | Except.error e => Except.error e
  | Except.ok ciphertext_lo =>
    match self.ciphertext_hi_with_role role with
    | Except.error e => Except.error e
    | Except.ok ciphertext_hi =>
      let amount_lo := decrypt_u32_online ciphertext_lo
      let amount_hi := decrypt_u32_online ciphertext_hi
      match amount_lo, amount_hi with
      | some lo, some hi => Except.ok (lo + TWO_32 * hi)
      | _, _ => Except.error ProofError.Verification

/-!
## Shared lemmas for the generation claims
-/

/-- The constant-time cap selects `min fee maximum`. -/

def gzero : GroupElt := (0, 0)

/-- A concrete ciphertext. -/

def czero : ElGamalCiphertext := ⟨gzero, gzero⟩

/-- A concrete limb encryption. -/

def sample_amount_encryption : TransferAmountEncryption :=
  ⟨gzero, gzero, gzero, gzero⟩

/-- A concrete fee encryption. -/

def sample_fee_encryption : FeeEncryption := ⟨gzero, gzero, gzero⟩

/-- A concrete pubkey quadruple. -/

def sample_pubkeys : TransferWithFeePubkeys := ⟨gzero, gzero, gzero, gzero⟩

/-- A concrete proof bundle whose first commitment pod fails to decode. -/

def sample_bad_proof : TransferWithFeeProof :=
  ⟨⟨[], none⟩, ⟨[], some gzero⟩, ⟨[], some ⟨()⟩⟩, ⟨[], some ⟨()⟩⟩,
   ⟨[], some ⟨()⟩⟩, ⟨[], some ⟨()⟩⟩, ⟨[], some ⟨[], []⟩⟩⟩

/-- A concrete proof bundle with all pods decoding. -/

def sample_proof_pods : TransferWithFeeProof :=
  ⟨⟨[], some gzero⟩, ⟨[], some gzero⟩, ⟨[], some ⟨()⟩⟩, ⟨[], some ⟨()⟩⟩,
   ⟨[], some ⟨()⟩⟩, ⟨[], some ⟨()⟩⟩, ⟨[], some ⟨[], []⟩⟩⟩

/-- A concrete envelope with all pods decoding. -/

def sample_data : TransferWithFeeData :=
  ⟨⟨[], some sample_amount_encryption⟩, ⟨[], some sample_amount_encryption⟩,
   ⟨[], some sample_pubkeys⟩, ⟨[], some czero⟩,
   ⟨[], some sample_fee_encryption⟩, ⟨0, 0⟩, sample_proof_pods⟩

/-!
## Witnesses
-/

theorem calculate_fee_eq (a r : Nat) :
    calculate_fee a r =
      (if a * r % FEE_DENOMINATOR = 0 then a * r / FEE_DENOMINATOR % U64_MOD
       else (a * r / FEE_DENOMINATOR % U64_MOD + 1) % U64_MOD,
       a * r % FEE_DENOMINATOR) := by
  unfold calculate_fee
  have hrm : a * r % FEE_DENOMINATOR % U64_MOD = a * r % FEE_DENOMINATOR :=
    Nat.mod_eq_of_lt (lt_trans (Nat.mod_lt _ (by decide)) (by decide))
  by_cases hz : a * r % FEE_DENOMINATOR = 0 <;> simp [hrm, hz]

theorem calculate_fee_rem_lt (transfer_amount fee_rate_basis_points : Nat) :
    (calculate_fee transfer_amount fee_rate_basis_points).2 < FEE_DENOMINATOR := by
  rw [calculate_fee_eq]
  exact Nat.mod_lt _ (by decide)

theorem calculate_fee_quotient_le (transfer_amount fee_rate_basis_points : Nat)
    (hrate : fee_rate_basis_points ≤ FEE_DENOMINATOR) :
    transfer_amount * fee_rate_basis_points / FEE_DENOMINATOR ≤ transfer_amount := by
  calc transfer_amount * fee_rate_basis_points / FEE_DENOMINATOR
      ≤ transfer_amount * FEE_DENOMINATOR / FEE_DENOMINATOR :=
        Nat.div_le_div_right (Nat.mul_le_mul_left _ hrate)
    _ = transfer_amount := Nat.mul_div_cancel _ (by decide)

/-- On the rounding path with an in-range rate, the floor quotient is
strictly below the transfer amount, so `fee_floor + 1 ≤ transfer_amount`. -/

theorem calculate_fee_quotient_lt (transfer_amount fee_rate_basis_points : Nat)
    (hrate : fee_rate_basis_points ≤ FEE_DENOMINATOR)
    (hrem : transfer_amount * fee_rate_basis_points % FEE_DENOMINATOR ≠ 0) :
    transfer_amount * fee_rate_basis_points / FEE_DENOMINATOR < transfer_amount := by
  have hq := calculate_fee_quotient_le transfer_amount fee_rate_basis_points hrate
  rcases lt_or_eq_of_le hq with h | h
  · exact h
  · exfalso
    have hmod := Nat.div_add_mod (transfer_amount * fee_rate_basis_points) FEE_DENOMINATOR
    rw [h] at hmod
    have hle : transfer_amount * fee_rate_basis_points ≤ transfer_amount * FEE_DENOMINATOR :=
      Nat.mul_le_mul_left _ hrate
    have hrpos : 0 < transfer_amount * fee_rate_basis_points % FEE_DENOMINATOR :=
      Nat.pos_of_ne_zero hrem
    have hcomm : FEE_DENOMINATOR * transfer_amount = transfer_amount * FEE_DENOMINATOR :=
      Nat.mul_comm _ _
    omega

/-- With an in-range rate and a u64 amount, no cast in `calculate_fee`
truncates: the result is the exact floor/round-up pair. -/

theorem calculate_fee_exact (transfer_amount fee_rate_basis_points : Nat)
    (hamount : transfer_amount < U64_MOD)
    (hrate : fee_rate_basis_points ≤ FEE_DENOMINATOR) :
    calculate_fee transfer_amount fee_rate_basis_points =
      (if transfer_amount * fee_rate_basis_points % FEE_DENOMINATOR = 0 then
        transfer_amount * fee_rate_basis_points / FEE_DENOMINATOR
       else transfer_amount * fee_rate_basis_points / FEE_DENOMINATOR + 1,
       transfer_amount * fee_rate_basis_points % FEE_DENOMINATOR) := by
  rw [calculate_fee_eq]
  have hq := calculate_fee_quotient_le transfer_amount fee_rate_basis_points hrate
  have hqmod : transfer_amount * fee_rate_basis_points / FEE_DENOMINATOR % U64_MOD
      = transfer_amount * fee_rate_basis_points / FEE_DENOMINATOR :=
    Nat.mod_eq_of_lt (lt_of_le_of_lt hq hamount)
  by_cases hz : transfer_amount * fee_rate_basis_points % FEE_DENOMINATOR = 0
  · simp [hz, hqmod]
  · have hlt := calculate_fee_quotient_lt transfer_amount fee_rate_basis_points hrate hz
    have hsmod : (transfer_amount * fee_rate_basis_points / FEE_DENOMINATOR + 1) % U64_MOD
        = transfer_amount * fee_rate_basis_points / FEE_DENOMINATOR + 1 :=
      Nat.mod_eq_of_lt (lt_of_le_of_lt hlt hamount)
    simp [hz, hqmod, hsmod]

theorem calculate_fee_fee_le (transfer_amount fee_rate_basis_points : Nat)
    (hamount : transfer_amount < U64_MOD)
    (hrate : fee_rate_basis_points ≤ FEE_DENOMINATOR) :
    (calculate_fee transfer_amount fee_rate_basis_points).1 ≤ transfer_amount := by
  rw [calculate_fee_exact transfer_amount fee_rate_basis_points hamount hrate]
  by_cases hz : transfer_amount * fee_rate_basis_points % FEE_DENOMINATOR = 0
  · simpa [hz] using calculate_fee_quotient_le transfer_amount fee_rate_basis_points hrate
  · simpa [hz] using calculate_fee_quotient_lt transfer_amount fee_rate_basis_points hrate hz

/-- Ceiling division by the fee denominator, written `(n + 9999) / 10000`. -/

theorem ceil_div_fee_denominator (n : Nat) :
    (n + (FEE_DENOMINATOR - 1)) / FEE_DENOMINATOR =
      if n % FEE_DENOMINATOR = 0 then n / FEE_DENOMINATOR else n / FEE_DENOMINATOR + 1 := by
  by_cases hz : n % FEE_DENOMINATOR = 0 <;>
    · simp only [FEE_DENOMINATOR] at *
      first
        | (rw [if_pos hz]; omega)
        | (rw [if_neg hz]; omega)

/-- C2 (counterexample): at `transfer_amount = 2^64 - 1`,
`rate_basis_points = 20000` the quotient `(amount * rate) / 10000 = 2^65 - 2`
does not fit in a `u64`, the `as u64` cast truncates, and the returned fee is
not the ceiling `ceil(amount * rate / 10000)`. -/

theorem C2_counterexample_cast_truncates :
    (calculate_fee (2 ^ 64 - 1) 20000).1 ≠
      ((2 ^ 64 - 1) * 20000 + (FEE_DENOMINATOR - 1)) / FEE_DENOMINATOR := by
  decide

/-- C2 (amended): for `rate_basis_points ≤ 10000` (so that the quotient fits
in a `u64` and the casts are lossless), `calculate_fee` returns exactly
`(ceil(amount * rate / 10000), (amount * rate) mod 10000)`: `(fee_floor, 0)`
when the remainder is zero, `(fee_floor + 1, remainder)` otherwise, with the
remainder in `[0, 10000)`.  For `rate_basis_points > 10000` the `as u64` cast
can truncate the quotient (see the counterexample). -/

theorem C2_calculate_fee_ceiling (transfer_amount fee_rate_basis_points : Nat)
    (hamount : transfer_amount < U64_MOD)
    (hrate : fee_rate_basis_points ≤ FEE_DENOMINATOR) :
    (calculate_fee transfer_amount fee_rate_basis_points).1 =
      (transfer_amount * fee_rate_basis_points + (FEE_DENOMINATOR - 1)) / FEE_DENOMINATOR
    ∧ (calculate_fee transfer_amount fee_rate_basis_points).2 =
        transfer_amount * fee_rate_basis_points % FEE_DENOMINATOR
    ∧ (calculate_fee transfer_amount fee_rate_basis_points).2 < FEE_DENOMINATOR
    ∧ (transfer_amount * fee_rate_basis_points % FEE_DENOMINATOR = 0 →
        calculate_fee transfer_amount fee_rate_basis_points =
          (transfer_amount * fee_rate_basis_points / FEE_DENOMINATOR, 0))
    ∧ (transfer_amount * fee_rate_basis_points % FEE_DENOMINATOR ≠ 0 →
        calculate_fee transfer_amount fee_rate_basis_points =
          (transfer_amount * fee_rate_basis_points / FEE_DENOMINATOR + 1,
           transfer_amount * fee_rate_basis_points % FEE_DENOMINATOR)) := by
  have hex := calculate_fee_exact transfer_amount fee_rate_basis_points hamount hrate
  have hceil := ceil_div_fee_denominator (transfer_amount * fee_rate_basis_points)
  refine ⟨?_, ?_, calculate_fee_rem_lt _ _, ?_, ?_⟩
  · rw [hex, hceil]
  · rw [hex]
  · intro hz
    rw [hex]
    simp [hz]
  · intro hz
    rw [hex]
    simp [hz]

/-- C3 (counterexample): at `amount = 1`, `rate = 1`, `calculate_fee` returns
`(f, r) = (1, 1)` and `f * DENOMINATOR − r = 9999 ≠ 1 = amount * rate`; the
identity claimed for all inputs fails on the rounding path. -/

theorem C3_counterexample_rounding_path :
    ¬ (((calculate_fee 1 1).1 : Int) * (FEE_DENOMINATOR : Int) -
        ((calculate_fee 1 1).2 : Int) = (1 : Int) * (1 : Int)) := by
  decide

/-- C3 (amended): for `rate ≤ 10000` and a u64 amount, the pair
`(f, r) = calculate_fee amount rate` satisfies `f * DENOMINATOR − r =
amount * rate` exactly on the floor path (`r = 0`); on the rounding path the
gap between the rounded-up fee scaled by DENOMINATOR and the true scaled fee
is `DENOMINATOR − r`, i.e. `f * DENOMINATOR − (DENOMINATOR − r) =
amount * rate`; in both cases `0 ≤ r < DENOMINATOR`. -/

theorem C3_calculate_fee_identity (transfer_amount fee_rate_basis_points : Nat)
    (hamount : transfer_amount < U64_MOD)
    (hrate : fee_rate_basis_points ≤ FEE_DENOMINATOR) :
    (calculate_fee transfer_amount fee_rate_basis_points).2 < FEE_DENOMINATOR
    ∧ ((calculate_fee transfer_amount fee_rate_basis_points).2 = 0 →
        ((calculate_fee transfer_amount fee_rate_basis_points).1 : Int) * (FEE_DENOMINATOR : Int)
          - ((calculate_fee transfer_amount fee_rate_basis_points).2 : Int)
          = (transfer_amount : Int) * (fee_rate_basis_points : Int))
    ∧ ((calculate_fee transfer_amount fee_rate_basis_points).2 ≠ 0 →
        ((calculate_fee transfer_amount fee_rate_basis_points).1 : Int) * (FEE_DENOMINATOR : Int)
          - ((FEE_DENOMINATOR : Int) - ((calculate_fee transfer_amount fee_rate_basis_points).2 : Int))
          = (transfer_amount : Int) * (fee_rate_basis_points : Int)) := by
  have hex := calculate_fee_exact transfer_amount fee_rate_basis_points hamount hrate
  have hmod := Nat.div_add_mod (transfer_amount * fee_rate_basis_points) FEE_DENOMINATOR
  refine ⟨calculate_fee_rem_lt _ _, ?_, ?_⟩ <;>
    · intro hz
      rw [hex] at hz ⊢
      by_cases hz2 : transfer_amount * fee_rate_basis_points % FEE_DENOMINATOR = 0 <;>
        · simp only [hz2, if_pos, if_neg, ne_eq, not_false_iff] at hz ⊢ <;>
          first
            | (simp only [FEE_DENOMINATOR] at *; push_cast; omega)
            | simp_all

/-- C10: for `rate_basis_points ≤ 10000` and any u64 amount, the 128-bit
quotient `(amount * rate) / 10000` fits in a u64 (the `as u64` cast is
lossless), the returned fee is at most the transfer amount, and on the
rounding path `fee_floor + 1` does not overflow a u64; whereas for some
`rate_basis_points > 10000` the quotient exceeds `u64::MAX` and the cast
truncates, so the returned fee differs from the true quotient. -/

theorem C10_calculate_fee_no_overflow :
    (∀ transfer_amount fee_rate_basis_points : Nat,
      transfer_amount < U64_MOD → fee_rate_basis_points ≤ FEE_DENOMINATOR →
      transfer_amount * fee_rate_basis_points / FEE_DENOMINATOR < U64_MOD
      ∧ transfer_amount * fee_rate_basis_points / FEE_DENOMINATOR % U64_MOD
          = transfer_amount * fee_rate_basis_points / FEE_DENOMINATOR
      ∧ (calculate_fee transfer_amount fee_rate_basis_points).1 ≤ transfer_amount
      ∧ (transfer_amount * fee_rate_basis_points % FEE_DENOMINATOR ≠ 0 →
          transfer_amount * fee_rate_basis_points / FEE_DENOMINATOR + 1 < U64_MOD))
    ∧ (∃ transfer_amount fee_rate_basis_points : Nat,
        transfer_amount < U64_MOD ∧ fee_rate_basis_points < 2 ^ 16
        ∧ FEE_DENOMINATOR < fee_rate_basis_points
        ∧ U64_MOD ≤ transfer_amount * fee_rate_basis_points / FEE_DENOMINATOR
        ∧ (calculate_fee transfer_amount fee_rate_basis_points).1 ≠
            transfer_amount * fee_rate_basis_points / FEE_DENOMINATOR) := by
  constructor
  · intro transfer_amount fee_rate_basis_points hamount hrate
    have hq := calculate_fee_quotient_le transfer_amount fee_rate_basis_points hrate
    have hqlt : transfer_amount * fee_rate_basis_points / FEE_DENOMINATOR < U64_MOD :=
      lt_of_le_of_lt hq hamount
    refine ⟨hqlt, Nat.mod_eq_of_lt hqlt,
      calculate_fee_fee_le transfer_amount fee_rate_basis_points hamount hrate, ?_⟩
    intro hz
    exact lt_of_le_of_lt (calculate_fee_quotient_lt transfer_amount fee_rate_basis_points hrate hz)
      hamount
  · exact ⟨2 ^ 64 - 1, 20000, by decide, by decide, by decide, by decide, by decide⟩

/-!
## Group / commitment model

Modelled from the spec (§3, §4.1): commitments, decrypt handles and
ciphertext components are opaque group elements of the ristretto group,
homomorphic under addition and scalar multiplication by the scalar field of
order `ell = 2^252 + 27742317777372353535851937790883648493`.  A group
element is represented by its coordinates over the two Pedersen generators
`(G, H)`; every operation the source uses is linear, so this free-module
representation is a faithful model of the collaborator algebra.
-/

/-- Order of the ristretto scalar field used by `curve25519_dalek::Scalar`. -/

theorem C6_delta_commitment_prover_verifier_agree
    (commitment_lo commitment_hi commitment_fee : GroupElt)
    (opening_lo opening_hi opening_fee : Scalar)
    (fee_rate_basis_points : Nat) :
    (compute_delta_commitment_and_opening commitment_lo opening_lo
        commitment_hi opening_hi commitment_fee opening_fee
        fee_rate_basis_points).1
      = compute_delta_commitment commitment_lo commitment_hi commitment_fee
          fee_rate_basis_points
    ∧ compute_delta_commitment commitment_lo commitment_hi commitment_fee
          fee_rate_basis_points
      = gsub (gsmul (FEE_DENOMINATOR : Scalar) commitment_fee)
          (gsmul (fee_rate_basis_points : Scalar)
            (combine_u32_commitments commitment_lo commitment_hi)) :=
  ⟨rfl, rfl⟩

/-!
## Errors, roles, transcript, pods
-/

/-- `errors::ProofError` (the two kinds used by this layer, spec §7). -/

theorem conditional_select_ct_gt_min (fee maximum : Nat) :
    conditional_select maximum fee (ct_gt maximum fee) = min fee maximum := by
  unfold conditional_select ct_gt
  by_cases h : fee < maximum <;> simp [h] <;> omega

/-- For a value at most `FEE_DENOMINATOR`, the wrapping u64 subtraction
`FEE_DENOMINATOR - d` equals the exact difference (no underflow). -/

theorem u64_wrapping_sub_fee_denominator (d : Nat) (hd : d ≤ FEE_DENOMINATOR) :
    u64_wrapping_sub FEE_DENOMINATOR d = FEE_DENOMINATOR - d := by
  unfold u64_wrapping_sub
  have h64 : U64_MOD = 18446744073709551616 := by norm_num [U64_MOD]
  simp only [FEE_DENOMINATOR] at *
  rw [h64]
  omega

/-- `checked_sub` on in-range inputs. -/

theorem u64_checked_sub_of_le (a b : Nat) (h : b ≤ a) :
    u64_checked_sub a b = some (a - b) := by
  simp [u64_checked_sub, h]

/-- `checked_sub` underflow. -/

theorem u64_checked_sub_of_lt (a b : Nat) (h : a < b) :
    u64_checked_sub a b = none := by
  simp [u64_checked_sub]
  omega

/-- C1: the value encrypted into the fee ciphertext by
`TransferWithFeeData::new` — `fee_to_encrypt`, produced by the constant-time
greater-than comparison and conditional select — is `min(fee, maximum_fee)`;
in particular when `fee = maximum_fee` the selected value is `maximum_fee`
and when `fee < maximum_fee` the raw fee is selected; and the fee ciphertext
stored by a successful `new` encrypts exactly
`min(calculate_fee(amount, rate).0, maximum_fee)`. -/

theorem C1_fee_cap_is_min
    (transfer_amount spendable_balance : Nat)
    (ciphertext_old_source : ElGamalCiphertext)
    (keypair_source_public pubkey_dest pubkey_auditor : GroupElt)
    (fee_parameters : FeeParameters) (pubkey_fee_collector : GroupElt)
    (o_lo o_hi o_fee o_source o_claimed : Scalar) :
    (∀ fee maximum : Nat,
      conditional_select maximum fee (ct_gt maximum fee) = min fee maximum
      ∧ fee_to_encrypt_value fee maximum = min fee maximum
      ∧ (fee = maximum → fee_to_encrypt_value fee maximum = maximum)
      ∧ (fee < maximum → fee_to_encrypt_value fee maximum = fee))
    ∧ (transfer_amount ≤ spendable_balance →
      ∃ d, TransferWithFeeData.new transfer_amount spendable_balance
          ciphertext_old_source keypair_source_public pubkey_dest
          pubkey_auditor fee_parameters pubkey_fee_collector o_lo o_hi o_fee
          o_source o_claimed = Except.ok d
        ∧ d.ciphertext_fee.decoded = some (FeeEncryption.new
            (min (calculate_fee transfer_amount
                fee_parameters.fee_rate_basis_points).1
              fee_parameters.maximum_fee)
            pubkey_dest pubkey_fee_collector o_fee).1) := by
  constructor
  · intro fee maximum
    have hmin := conditional_select_ct_gt_min fee maximum
    refine ⟨hmin, hmin, ?_, ?_⟩
    · intro h
      rw [fee_to_encrypt_value, hmin, h, Nat.min_self]
    · intro h
      rw [fee_to_encrypt_value, hmin]
      omega
  · intro hle
    have hsub := u64_checked_sub_of_le spendable_balance transfer_amount hle
    simp only [TransferWithFeeData.new, hsub]
    exact ⟨_, rfl, by simp [conditional_select_ct_gt_min]⟩

/-- C4: `TransferWithFeeData::new` returns `Err(ProofError::Generation)`
(and constructs no value) exactly when `transfer_amount >
spendable_balance`; otherwise the checked subtraction succeeds and
generation proceeds with `new_spendable_balance = spendable_balance −
transfer_amount` (witnessed by the new-balance commitment of the produced
proof bundle). -/

theorem C4_underflow_aborts_generation
    (transfer_amount spendable_balance : Nat)
    (ciphertext_old_source : ElGamalCiphertext)
    (keypair_source_public pubkey_dest pubkey_auditor : GroupElt)
    (fee_parameters : FeeParameters) (pubkey_fee_collector : GroupElt)
    (o_lo o_hi o_fee o_source o_claimed : Scalar) :
    (spendable_balance < transfer_amount →
      TransferWithFeeData.new transfer_amount spendable_balance
        ciphertext_old_source keypair_source_public pubkey_dest pubkey_auditor
        fee_parameters pubkey_fee_collector o_lo o_hi o_fee o_source o_claimed
        = Except.error ProofError.Generation)
    ∧ (transfer_amount ≤ spendable_balance →
      ∃ d, TransferWithFeeData.new transfer_amount spendable_balance
          ciphertext_old_source keypair_source_public pubkey_dest
          pubkey_auditor fee_parameters pubkey_fee_collector o_lo o_hi o_fee
          o_source o_claimed = Except.ok d
        ∧ d.proof.commitment_new_source.decoded =
            some (Pedersen.new (spendable_balance - transfer_amount)
              o_source).1) := by
  constructor
  · intro hlt
    have hsub := u64_checked_sub_of_lt spendable_balance transfer_amount hlt
    simp only [TransferWithFeeData.new, hsub]
  · intro hle
    have hsub := u64_checked_sub_of_le spendable_balance transfer_amount hle
    simp only [TransferWithFeeData.new, hsub]
    exact ⟨_, rfl, by simp [TransferWithFeeProof.new]⟩

/-- C7: generation and verification build bit-identical initial transcripts:
`transcript_new` starts from the fixed domain separator `"FeeProof"` and
appends, in this order and with these labels, the pubkeys bytes
(`"transfer-with-fee-pubkeys"`), ciphertext-lo bytes, ciphertext-hi bytes
and ciphertext-fee bytes; and the transcript generation builds equals the
one verification rebuilds from the stored pod bytes of the produced
envelope. -/

theorem C7_transcripts_agree
    (transfer_amount spendable_balance : Nat)
    (ciphertext_old_source : ElGamalCiphertext)
    (keypair_source_public pubkey_dest pubkey_auditor : GroupElt)
    (fee_parameters : FeeParameters) (pubkey_fee_collector : GroupElt)
    (o_lo o_hi o_fee o_source o_claimed : Scalar) :
    (∀ pubkeys_bytes lo_bytes hi_bytes fee_bytes : List Nat,
      TransferWithFeeProof.transcript_new pubkeys_bytes lo_bytes hi_bytes
          fee_bytes =
        [TranscriptEntry.dom "FeeProof",
         TranscriptEntry.msg "transfer-with-fee-pubkeys" pubkeys_bytes,
         TranscriptEntry.msg "ciphertext-lo" lo_bytes,
         TranscriptEntry.msg "ciphertext-hi" hi_bytes,
         TranscriptEntry.msg "ciphertext-fee" fee_bytes])
    ∧ (transfer_amount ≤ spendable_balance →
      ∃ d, TransferWithFeeData.new transfer_amount spendable_balance
          ciphertext_old_source keypair_source_public pubkey_dest
          pubkey_auditor fee_parameters pubkey_fee_collector o_lo o_hi o_fee
          o_source o_claimed = Except.ok d
        ∧ TransferWithFeeData.new_transcript transfer_amount spendable_balance
            ciphertext_old_source keypair_source_public pubkey_dest
            pubkey_auditor fee_parameters pubkey_fee_collector o_lo o_hi o_fee
            o_source o_claimed = d.verify_transcript
        ∧ d.verify_transcript = TransferWithFeeProof.transcript_new
            d.transfer_with_fee_pubkeys.bytes d.ciphertext_lo.bytes
            d.ciphertext_hi.bytes d.ciphertext_fee.bytes) := by
  constructor
  · intro pubkeys_bytes lo_bytes hi_bytes fee_bytes
    rfl
  · intro hle
    have hsub := u64_checked_sub_of_le spendable_balance transfer_amount hle
    simp only [TransferWithFeeData.new, hsub]
    exact ⟨_, rfl, rfl, rfl⟩

/-- C9: the remainder (`delta_fee`) returned by `calculate_fee` is always
strictly below `FEE_DENOMINATOR = 10000`, so the u64 subtraction
`FEE_DENOMINATOR - delta_fee` in the range-proof value list of
`TransferWithFeeProof::new` never underflows: a successful generation
records exactly the range values `[new_balance, amount_lo, amount_hi,
delta_fee, FEE_DENOMINATOR − delta_fee]` with bit lengths
`[64, 32, 32, 64, 64]`. -/

theorem C9_range_proof_complement_no_underflow
    (transfer_amount spendable_balance : Nat)
    (ciphertext_old_source : ElGamalCiphertext)
    (keypair_source_public pubkey_dest pubkey_auditor : GroupElt)
    (fee_parameters : FeeParameters) (pubkey_fee_collector : GroupElt)
    (o_lo o_hi o_fee o_source o_claimed : Scalar) :
    (calculate_fee transfer_amount fee_parameters.fee_rate_basis_points).2
      < FEE_DENOMINATOR
    ∧ u64_wrapping_sub FEE_DENOMINATOR
        (calculate_fee transfer_amount
          fee_parameters.fee_rate_basis_points).2 =
      FEE_DENOMINATOR - (calculate_fee transfer_amount
        fee_parameters.fee_rate_basis_points).2
    ∧ (transfer_amount ≤ spendable_balance →
      ∃ d, TransferWithFeeData.new transfer_amount spendable_balance
          ciphertext_old_source keypair_source_public pubkey_dest
          pubkey_auditor fee_parameters pubkey_fee_collector o_lo o_hi o_fee
          o_source o_claimed = Except.ok d
        ∧ d.proof.range_proof.decoded = some
            ⟨[spendable_balance - transfer_amount,
              (split_u64_into_u32 transfer_amount).1,
              (split_u64_into_u32 transfer_amount).2,
              (calculate_fee transfer_amount
                fee_parameters.fee_rate_basis_points).2,
              FEE_DENOMINATOR - (calculate_fee transfer_amount
                fee_parameters.fee_rate_basis_points).2],
             [64, 32, 32, 64, 64]⟩) := by
  have hlt := calculate_fee_rem_lt transfer_amount
    fee_parameters.fee_rate_basis_points
  have hw := u64_wrapping_sub_fee_denominator
    (calculate_fee transfer_amount fee_parameters.fee_rate_basis_points).2
    (le_of_lt hlt)
  refine ⟨hlt, hw, ?_⟩
  intro hle
  have hsub := u64_checked_sub_of_le spendable_balance transfer_amount hle
  simp only [TransferWithFeeData.new, hsub]
  exact ⟨_, rfl, by simp [TransferWithFeeProof.new, RangeProof.new, hw]⟩

/-- C8: `decrypt_amount` selects the decrypt handle matching the role from
each limb, decrypts both limbs through the discrete-log oracle, and returns
`Ok(lo + 2^32 * hi)` when both resolve; it returns
`Err(ProofError::Verification)` when either limb's pod fails to decode or
either limb's decryption returns `None`. -/

theorem C8_decrypt_amount_roles
    (self : TransferWithFeeData) (role : Role)
    (decrypt_u32_online : ElGamalCiphertext → Option Nat) :
    ((self.ciphertext_lo.decoded = none ∨ self.ciphertext_hi.decoded = none) →
      self.decrypt_amount role decrypt_u32_online =
        Except.error ProofError.Verification)
    ∧ (∀ clo chi : TransferAmountEncryption,
        self.ciphertext_lo.decoded = some clo →
        self.ciphertext_hi.decoded = some chi →
        (∀ lo hi : Nat,
          decrypt_u32_online ⟨clo.commitment,
            handle_get role clo.source clo.dest clo.auditor⟩ = some lo →
          decrypt_u32_online ⟨chi.commitment,
            handle_get role chi.source chi.dest chi.auditor⟩ = some hi →
          self.decrypt_amount role decrypt_u32_online =
            Except.ok (lo + TWO_32 * hi))
        ∧ ((decrypt_u32_online ⟨clo.commitment,
              handle_get role clo.source clo.dest clo.auditor⟩ = none ∨
            decrypt_u32_online ⟨chi.commitment,
              handle_get role chi.source chi.dest chi.auditor⟩ = none) →
          self.decrypt_amount role decrypt_u32_online =
            Except.error ProofError.Verification)) := by
  constructor
  · intro h
    rcases h with h | h
    · simp [TransferWithFeeData.decrypt_amount,
        TransferWithFeeData.ciphertext_lo_with_role, pod_try_into, h]
    · cases hlo : self.ciphertext_lo.decoded with
      | none =>
        simp [TransferWithFeeData.decrypt_amount,
          TransferWithFeeData.ciphertext_lo_with_role, pod_try_into, hlo]
      | some clo =>
        simp [TransferWithFeeData.decrypt_amount,
          TransferWithFeeData.ciphertext_lo_with_role,
          TransferWithFeeData.ciphertext_hi_with_role, pod_try_into, hlo, h]
  · intro clo chi hlo hhi
    constructor
    · intro lo hi holo hohi
      simp [TransferWithFeeData.decrypt_amount,
        TransferWithFeeData.ciphertext_lo_with_role,
        TransferWithFeeData.ciphertext_hi_with_role, pod_try_into,
        hlo, hhi, holo, hohi]
    · intro h
      rcases h with h | h
      · simp [TransferWithFeeData.decrypt_amount,
          TransferWithFeeData.ciphertext_lo_with_role,
          TransferWithFeeData.ciphertext_hi_with_role, pod_try_into,
          hlo, hhi, h]
      · cases holo : decrypt_u32_online ⟨clo.commitment,
            handle_get role clo.source clo.dest clo.auditor⟩ with
        | none =>
          simp [TransferWithFeeData.decrypt_amount,
            TransferWithFeeData.ciphertext_lo_with_role,
            TransferWithFeeData.ciphertext_hi_with_role, pod_try_into,
            hlo, hhi, holo]
        | some lo =>
          simp [TransferWithFeeData.decrypt_amount,
            TransferWithFeeData.ciphertext_lo_with_role,
            TransferWithFeeData.ciphertext_hi_with_role, pod_try_into,
            hlo, hhi, holo, h]

/-- C5: `TransferWithFeeProof::verify` invokes the five sub-proof verifiers
in exactly the generation order — equality, aggregated validity, fee-sigma,
fee validity, range — and is a short-circuiting conjunction: it returns
`Ok(())` iff every pod decode and every sub-verifier succeeds (first
conjunct); any pod decode failure yields `Err(Verification)` independently
of all verifier behaviour (second conjunct); and the first failing
sub-verifier's error is returned unchanged, the later verifiers — left
universally unconstrained in each implication — never influencing the
result (remaining conjuncts). -/

theorem C5_verify_order_and_short_circuit
    (self : TransferWithFeeProof)
    (ciphertext_lo ciphertext_hi : TransferAmountEncryption)
    (transfer_with_fee_pubkeys : TransferWithFeePubkeys)
    (new_spendable_ciphertext : ElGamalCiphertext)
    (ciphertext_fee : FeeEncryption)
    (fee_parameters : FeeParameters)
    (equality_verify : EqualityProof → GroupElt → ElGamalCiphertext →
      GroupElt → Transcript → Except ProofError Transcript)
    (validity_verify : AggregatedValidityProof → GroupElt → GroupElt →
      GroupElt → GroupElt → GroupElt → GroupElt → GroupElt → GroupElt →
      Transcript → Except ProofError Transcript)
    (fee_sigma_verify : FeeSigmaProof → GroupElt → GroupElt → GroupElt →
      Nat → Transcript → Except ProofError Transcript)
    (fee_validity_verify : ValidityProof → GroupElt → GroupElt → GroupElt →
      GroupElt → GroupElt → Transcript → Except ProofError Transcript)
    (range_verify : RangeProof → List GroupElt → List Nat → Transcript →
      Except ProofError Transcript)
    (transcript : Transcript) :
    (TransferWithFeeProof.verify self ciphertext_lo ciphertext_hi
        transfer_with_fee_pubkeys new_spendable_ciphertext ciphertext_fee
        fee_parameters equality_verify validity_verify fee_sigma_verify
        fee_validity_verify range_verify transcript = Except.ok () ↔
      ∃ cns cc ep avp fsp fvp rp t1 t2 t3 t4 t5,
        self.commitment_new_source.decoded = some cns ∧
        self.commitment_claimed.decoded = some cc ∧
        self.equality_proof.decoded = some ep ∧
        self.ciphertext_amount_validity_proof.decoded = some avp ∧
        self.fee_sigma_proof.decoded = some fsp ∧
        self.ciphertext_fee_validity_proof.decoded = some fvp ∧
        self.range_proof.decoded = some rp ∧
        equality_verify ep transfer_with_fee_pubkeys.source
          new_spendable_ciphertext cns
          (verify_initial_transcript self transcript) = Except.ok t1 ∧
        validity_verify avp transfer_with_fee_pubkeys.dest
          transfer_with_fee_pubkeys.auditor ciphertext_lo.commitment
          ciphertext_hi.commitment ciphertext_lo.dest ciphertext_hi.dest
          ciphertext_lo.auditor ciphertext_hi.auditor t1 = Except.ok t2 ∧
        fee_sigma_verify fsp ciphertext_fee.commitment
          (compute_delta_commitment ciphertext_lo.commitment
            ciphertext_hi.commitment ciphertext_fee.commitment
            fee_parameters.fee_rate_basis_points) cc
          fee_parameters.maximum_fee t2 = Except.ok t3 ∧
        fee_validity_verify fvp ciphertext_fee.commitment
          transfer_with_fee_pubkeys.dest
          transfer_with_fee_pubkeys.fee_collector ciphertext_fee.dest
          ciphertext_fee.fee_collector t3 = Except.ok t4 ∧
        range_verify rp
          [cns, ciphertext_lo.commitment, ciphertext_hi.commitment, cc,
           gsub COMMITMENT_FEE_DENOMINATOR cc]
          [64, 32, 32, 64, 64] t4 = Except.ok t5)
    ∧ ((self.commitment_new_source.decoded = none ∨
        self.commitment_claimed.decoded = none ∨
        self.equality_proof.decoded = none ∨
        self.ciphertext_amount_validity_proof.decoded = none ∨
        self.fee_sigma_proof.decoded = none ∨
        self.ciphertext_fee_validity_proof.decoded = none ∨
        self.range_proof.decoded = none) →
      TransferWithFeeProof.verify self ciphertext_lo ciphertext_hi
        transfer_with_fee_pubkeys new_spendable_ciphertext ciphertext_fee
        fee_parameters equality_verify validity_verify fee_sigma_verify
        fee_validity_verify range_verify transcript =
          Except.error ProofError.Verification)
    ∧ (∀ cns cc ep avp fsp fvp rp e,
        self.commitment_new_source.decoded = some cns →
        self.commitment_claimed.decoded = some cc →
        self.equality_proof.decoded = some ep →
        self.ciphertext_amount_validity_proof.decoded = some avp →
        self.fee_sigma_proof.decoded = some fsp →
        self.ciphertext_fee_validity_proof.decoded = some fvp →
        self.range_proof.decoded = some rp →
        equality_verify ep transfer_with_fee_pubkeys.source
          new_spendable_ciphertext cns
          (verify_initial_transcript self transcript) = Except.error e →
        TransferWithFeeProof.verify self ciphertext_lo ciphertext_hi
          transfer_with_fee_pubkeys new_spendable_ciphertext ciphertext_fee
          fee_parameters equality_verify validity_verify fee_sigma_verify
          fee_validity_verify range_verify transcript = Except.error e)
    ∧ (∀ cns cc ep avp fsp fvp rp t1 e,
        self.commitment_new_source.decoded = some cns →
        self.commitment_claimed.decoded = some cc →
        self.equality_proof.decoded = some ep →
        self.ciphertext_amount_validity_proof.decoded = some avp →
        self.fee_sigma_proof.decoded = some fsp →
        self.ciphertext_fee_validity_proof.decoded = some fvp →
        self.range_proof.decoded = some rp →
        equality_verify ep transfer_with_fee_pubkeys.source
          new_spendable_ciphertext cns
          (verify_initial_transcript self transcript) = Except.ok t1 →
        validity_verify avp transfer_with_fee_pubkeys.dest
          transfer_with_fee_pubkeys.auditor ciphertext_lo.commitment
          ciphertext_hi.commitment ciphertext_lo.dest ciphertext_hi.dest
          ciphertext_lo.auditor ciphertext_hi.auditor t1 = Except.error e →
        TransferWithFeeProof.verify self ciphertext_lo ciphertext_hi
          transfer_with_fee_pubkeys new_spendable_ciphertext ciphertext_fee
          fee_parameters equality_verify validity_verify fee_sigma_verify
          fee_validity_verify range_verify transcript = Except.error e)
    ∧ (∀ cns cc ep avp fsp fvp rp t1 t2 e,
        self.commitment_new_source.decoded = some cns →
        self.commitment_claimed.decoded = some cc →
        self.equality_proof.decoded = some ep →
        self.ciphertext_amount_validity_proof.decoded = some avp →
        self.fee_sigma_proof.decoded = some fsp →
        self.ciphertext_fee_validity_proof.decoded = some fvp →
        self.range_proof.decoded = some rp →
        equality_verify ep transfer_with_fee_pubkeys.source
          new_spendable_ciphertext cns
          (verify_initial_transcript self transcript) = Except.ok t1 →
        validity_verify avp transfer_with_fee_pubkeys.dest
          transfer_with_fee_pubkeys.auditor ciphertext_lo.commitment
          ciphertext_hi.commitment ciphertext_lo.dest ciphertext_hi.dest
          ciphertext_lo.auditor ciphertext_hi.auditor t1 = Except.ok t2 →
        fee_sigma_verify fsp ciphertext_fee.commitment
          (compute_delta_commitment ciphertext_lo.commitment
            ciphertext_hi.commitment ciphertext_fee.commitment
            fee_parameters.fee_rate_basis_points) cc
          fee_parameters.maximum_fee t2 = Except.error e →
        TransferWithFeeProof.verify self ciphertext_lo ciphertext_hi
          transfer_with_fee_pubkeys new_spendable_ciphertext ciphertext_fee
          fee_parameters equality_verify validity_verify fee_sigma_verify
          fee_validity_verify range_verify transcript = Except.error e)
    ∧ (∀ cns cc ep avp fsp fvp rp t1 t2 t3 e,
        self.commitment_new_source.decoded = some cns →
        self.commitment_claimed.decoded = some cc →
        self.equality_proof.decoded = some ep →
        self.ciphertext_amount_validity_proof.decoded = some avp →
        self.fee_sigma_proof.decoded = some fsp →
        self.ciphertext_fee_validity_proof.decoded = some fvp →
        self.range_proof.decoded = some rp →
        equality_verify ep transfer_with_fee_pubkeys.source
          new_spendable_ciphertext cns
          (verify_initial_transcript self transcript) = Except.ok t1 →
        validity_verify avp transfer_with_fee_pubkeys.dest
          transfer_with_fee_pubkeys.auditor ciphertext_lo.commitment
          ciphertext_hi.commitment ciphertext_lo.dest ciphertext_hi.dest
          ciphertext_lo.auditor ciphertext_hi.auditor t1 = Except.ok t2 →
        fee_sigma_verify fsp ciphertext_fee.commitment
          (compute_delta_commitment ciphertext_lo.commitment
            ciphertext_hi.commitment ciphertext_fee.commitment
            fee_parameters.fee_rate_basis_points) cc
          fee_parameters.maximum_fee t2 = Except.ok t3 →
        fee_validity_verify fvp ciphertext_fee.commitment
          transfer_with_fee_pubkeys.dest
          transfer_with_fee_pubkeys.fee_collector ciphertext_fee.dest
          ciphertext_fee.fee_collector t3 = Except.error e →
        TransferWithFeeProof.verify self ciphertext_lo ciphertext_hi
          transfer_with_fee_pubkeys new_spendable_ciphertext ciphertext_fee
          fee_parameters equality_verify validity_verify fee_sigma_verify
          fee_validity_verify range_verify transcript = Except.error e)
    ∧ (∀ cns cc ep avp fsp fvp rp t1 t2 t3 t4 e,
        self.commitment_new_source.decoded = some cns →
        self.commitment_claimed.decoded = some cc →
        self.equality_proof.decoded = some ep →
        self.ciphertext_amount_validity_proof.decoded = some avp →
        self.fee_sigma_proof.decoded = some fsp →
        self.ciphertext_fee_validity_proof.decoded = some fvp →
        self.range_proof.decoded = some rp →
        equality_verify ep transfer_with_fee_pubkeys.source
          new_spendable_ciphertext cns
          (verify_initial_transcript self transcript) = Except.ok t1 →
        validity_verify avp transfer_with_fee_pubkeys.dest
          transfer_with_fee_pubkeys.auditor ciphertext_lo.commitment
          ciphertext_hi.commitment ciphertext_lo.dest ciphertext_hi.dest
          ciphertext_lo.auditor ciphertext_hi.auditor t1 = Except.ok t2 →
        fee_sigma_verify fsp ciphertext_fee.commitment
          (compute_delta_commitment ciphertext_lo.commitment
            ciphertext_hi.commitment ciphertext_fee.commitment
            fee_parameters.fee_rate_basis_points) cc
          fee_parameters.maximum_fee t2 = Except.ok t3 →
        fee_validity_verify fvp ciphertext_fee.commitment
          transfer_with_fee_pubkeys.dest
          transfer_with_fee_pubkeys.fee_collector ciphertext_fee.dest
          ciphertext_fee.fee_collector t3 = Except.ok t4 →
        range_verify rp
          [cns, ciphertext_lo.commitment, ciphertext_hi.commitment, cc,
           gsub COMMITMENT_FEE_DENOMINATOR cc]
          [64, 32, 32, 64, 64] t4 = Except.error e →
        TransferWithFeeProof.verify self ciphertext_lo ciphertext_hi
          transfer_with_fee_pubkeys new_spendable_ciphertext ciphertext_fee
          fee_parameters equality_verify validity_verify fee_sigma_verify
          fee_validity_verify range_verify transcript = Except.error e) := by
  refine ⟨?_, ?_, ?_, ?_, ?_, ?_, ?_⟩
  · constructor
    · intro hok
      cases h1 : self.commitment_new_source.decoded with
      | none => simp [TransferWithFeeProof.verify, pod_try_into, h1] at hok
      | some cns =>
        cases h2 : self.commitment_claimed.decoded with
        | none =>
          simp [TransferWithFeeProof.verify, pod_try_into, h1, h2] at hok
        | some cc =>
          cases h3 : self.equality_proof.decoded with
          | none =>
            simp [TransferWithFeeProof.verify, pod_try_into, h1, h2, h3] at hok
          | some ep =>
            cases h4 : self.ciphertext_amount_validity_proof.decoded with
            | none =>
              simp [TransferWithFeeProof.verify, pod_try_into,
                h1, h2, h3, h4] at hok
            | some avp =>
              cases h5 : self.fee_sigma_proof.decoded with
              | none =>
                simp [TransferWithFeeProof.verify, pod_try_into,
                  h1, h2, h3, h4, h5] at hok
              | some fsp =>
                cases h6 : self.ciphertext_fee_validity_proof.decoded with
                | none =>
                  simp [TransferWithFeeProof.verify, pod_try_into,
                    h1, h2, h3, h4, h5, h6] at hok
                | some fvp =>
                  cases h7 : self.range_proof.decoded with
                  | none =>
                    simp [TransferWithFeeProof.verify, pod_try_into,
                      h1, h2, h3, h4, h5, h6, h7] at hok
                  | some rp =>
                    cases he1 : equality_verify ep
                        transfer_with_fee_pubkeys.source
                        new_spendable_ciphertext cns
                        (verify_initial_transcript self transcript) with
                    | error e =>
                      simp [TransferWithFeeProof.verify, pod_try_into,
                        h1, h2, h3, h4, h5, h6, h7, he1] at hok
                    | ok t1 =>
                      cases he2 : validity_verify avp
                          transfer_with_fee_pubkeys.dest
                          transfer_with_fee_pubkeys.auditor
                          ciphertext_lo.commitment ciphertext_hi.commitment
                          ciphertext_lo.dest ciphertext_hi.dest
                          ciphertext_lo.auditor ciphertext_hi.auditor t1 with
                      | error e =>
                        simp [TransferWithFeeProof.verify, pod_try_into,
                          h1, h2, h3, h4, h5, h6, h7, he1, he2] at hok
                      | ok t2 =>
                        cases he3 : fee_sigma_verify fsp
                            ciphertext_fee.commitment
                            (compute_delta_commitment ciphertext_lo.commitment
                              ciphertext_hi.commitment
                              ciphertext_fee.commitment
                              fee_parameters.fee_rate_basis_points) cc
                            fee_parameters.maximum_fee t2 with
                        | error e =>
                          simp [TransferWithFeeProof.verify, pod_try_into,
                            h1, h2, h3, h4, h5, h6, h7, he1, he2, he3] at hok
                        | ok t3 =>
                          cases he4 : fee_validity_verify fvp
                              ciphertext_fee.commitment
                              transfer_with_fee_pubkeys.dest
                              transfer_with_fee_pubkeys.fee_collector
                              ciphertext_fee.dest ciphertext_fee.fee_collector
                              t3 with
                          | error e =>
                            simp [TransferWithFeeProof.verify, pod_try_into,
                              h1, h2, h3, h4, h5, h6, h7, he1, he2, he3,
                              he4] at hok
                          | ok t4 =>
                            cases he5 : range_verify rp
                                [cns, ciphertext_lo.commitment,
                                 ciphertext_hi.commitment, cc,
                                 gsub COMMITMENT_FEE_DENOMINATOR cc]
                                [64, 32, 32, 64, 64] t4 with
                            | error e =>
                              simp [TransferWithFeeProof.verify, pod_try_into,
                                h1, h2, h3, h4, h5, h6, h7, he1, he2, he3,
                                he4, he5] at hok
                            | ok t5 =>
                              exact ⟨cns, cc, ep, avp, fsp, fvp, rp, t1, t2,
                                t3, t4, t5, rfl, rfl, rfl, rfl, rfl, rfl,
                                rfl, he1, he2, he3, he4, he5⟩
    · rintro ⟨cns, cc, ep, avp, fsp, fvp, rp, t1, t2, t3, t4, t5, h1, h2, h3,
        h4, h5, h6, h7, he1, he2, he3, he4, he5⟩
      simp [TransferWithFeeProof.verify, pod_try_into,
        h1, h2, h3, h4, h5, h6, h7, he1, he2, he3, he4, he5]
  · intro h
    obtain ⟨⟨b1, d1⟩, ⟨b2, d2⟩, ⟨b3, d3⟩, ⟨b4, d4⟩, ⟨b5, d5⟩, ⟨b6, d6⟩,
      ⟨b7, d7⟩⟩ := self
    cases d1 <;> cases d2 <;> cases d3 <;> cases d4 <;> cases d5 <;>
      cases d6 <;> cases d7 <;>
      simp_all [TransferWithFeeProof.verify, pod_try_into]
  · intro cns cc ep avp fsp fvp rp e h1 h2 h3 h4 h5 h6 h7 he1
    simp [TransferWithFeeProof.verify, pod_try_into,
      h1, h2, h3, h4, h5, h6, h7, he1]
  · intro cns cc ep avp fsp fvp rp t1 e h1 h2 h3 h4 h5 h6 h7 he1 he2
    simp [TransferWithFeeProof.verify, pod_try_into,
      h1, h2, h3, h4, h5, h6, h7, he1, he2]
  · intro cns cc ep avp fsp fvp rp t1 t2 e h1 h2 h3 h4 h5 h6 h7 he1 he2 he3
    simp [TransferWithFeeProof.verify, pod_try_into,
      h1, h2, h3, h4, h5, h6, h7, he1, he2, he3]
  · intro cns cc ep avp fsp fvp rp t1 t2 t3 e h1 h2 h3 h4 h5 h6 h7 he1 he2
      he3 he4
    simp [TransferWithFeeProof.verify, pod_try_into,
      h1, h2, h3, h4, h5, h6, h7, he1, he2, he3, he4]
  · intro cns cc ep avp fsp fvp rp t1 t2 t3 t4 e h1 h2 h3 h4 h5 h6 h7 he1
      he2 he3 he4 he5
    simp [TransferWithFeeProof.verify, pod_try_into,
      h1, h2, h3, h4, h5, h6, h7, he1, he2, he3, he4, he5]

/-!
## Concrete sample inputs used by the witnesses
-/

/-- The zero group element. -/

theorem C2_calculate_fee_ceiling_witness :
    (calculate_fee 100 100).1 =
      (100 * 100 + (FEE_DENOMINATOR - 1)) / FEE_DENOMINATOR :=
  (C2_calculate_fee_ceiling 100 100 (by decide) (by decide)).1

theorem C3_calculate_fee_identity_witness :
    ((calculate_fee 100 100).1 : Int) * (FEE_DENOMINATOR : Int) -
      ((calculate_fee 100 100).2 : Int) = (100 : Int) * (100 : Int) :=
  (C3_calculate_fee_identity 100 100 (by decide) (by decide)).2.1 (by decide)

theorem C10_calculate_fee_no_overflow_witness :
    (calculate_fee 3 100).1 ≤ 3 :=
  (C10_calculate_fee_no_overflow.1 3 100 (by decide) (by decide)).2.2.1

theorem C1_fee_cap_is_min_witness :
    ∃ d, TransferWithFeeData.new 1 1 czero gzero gzero gzero ⟨0, 0⟩ gzero
        0 0 0 0 0 = Except.ok d
      ∧ d.ciphertext_fee.decoded = some (FeeEncryption.new
          (min (calculate_fee 1 (FeeParameters.mk 0 0).fee_rate_basis_points).1
            (FeeParameters.mk 0 0).maximum_fee) gzero gzero 0).1 :=
  (C1_fee_cap_is_min 1 1 czero gzero gzero gzero ⟨0, 0⟩ gzero
    0 0 0 0 0).2 (by decide)

theorem C4_underflow_aborts_generation_witness :
    TransferWithFeeData.new 2 1 czero gzero gzero gzero ⟨0, 0⟩ gzero
      0 0 0 0 0 = Except.error ProofError.Generation :=
  (C4_underflow_aborts_generation 2 1 czero gzero gzero gzero ⟨0, 0⟩ gzero
    0 0 0 0 0).1 (by decide)

theorem C7_transcripts_agree_witness :
    ∃ d, TransferWithFeeData.new 1 1 czero gzero gzero gzero ⟨0, 0⟩ gzero
        0 0 0 0 0 = Except.ok d
      ∧ TransferWithFeeData.new_transcript 1 1 czero gzero gzero gzero
          ⟨0, 0⟩ gzero 0 0 0 0 0 = d.verify_transcript
      ∧ d.verify_transcript = TransferWithFeeProof.transcript_new
          d.transfer_with_fee_pubkeys.bytes d.ciphertext_lo.bytes
          d.ciphertext_hi.bytes d.ciphertext_fee.bytes :=
  (C7_transcripts_agree 1 1 czero gzero gzero gzero ⟨0, 0⟩ gzero
    0 0 0 0 0).2 (by decide)

theorem C9_range_proof_complement_no_underflow_witness :
    ∃ d, TransferWithFeeData.new 1 1 czero gzero gzero gzero ⟨0, 0⟩ gzero
        0 0 0 0 0 = Except.ok d
      ∧ d.proof.range_proof.decoded = some
          ⟨[1 - 1, (split_u64_into_u32 1).1, (split_u64_into_u32 1).2,
            (calculate_fee 1 (FeeParameters.mk 0 0).fee_rate_basis_points).2,
            FEE_DENOMINATOR - (calculate_fee 1
              (FeeParameters.mk 0 0).fee_rate_basis_points).2],
           [64, 32, 32, 64, 64]⟩ :=
  (C9_range_proof_complement_no_underflow 1 1 czero gzero gzero gzero
    ⟨0, 0⟩ gzero 0 0 0 0 0).2.2 (by decide)

theorem C8_decrypt_amount_roles_witness :
    TransferWithFeeData.decrypt_amount sample_data Role.Dest
      (fun _ => some 7) = Except.ok (7 + TWO_32 * 7) :=
  ((C8_decrypt_amount_roles sample_data Role.Dest (fun _ => some 7)).2
    sample_amount_encryption sample_amount_encryption rfl rfl).1 7 7 rfl rfl

theorem C5_verify_order_and_short_circuit_witness :
    TransferWithFeeProof.verify sample_bad_proof sample_amount_encryption
      sample_amount_encryption sample_pubkeys czero sample_fee_encryption
      ⟨0, 0⟩
      (fun _ _ _ _ t => Except.ok t)
      (fun _ _ _ _ _ _ _ _ _ t => Except.ok t)
      (fun _ _ _ _ _ t => Except.ok t)
      (fun _ _ _ _ _ _ t => Except.ok t)
      (fun _ _ _ t => Except.ok t)
      [] = Except.error ProofError.Verification :=
  (C5_verify_order_and_short_circuit sample_bad_proof
    sample_amount_encryption sample_amount_encryption sample_pubkeys czero
    sample_fee_encryption ⟨0, 0⟩
    (fun _ _ _ _ t => Except.ok t)
    (fun _ _ _ _ _ _ _ _ _ t => Except.ok t)
    (fun _ _ _ _ _ t => Except.ok t)
    (fun _ _ _ _ _ _ t => Except.ok t)
    (fun _ _ _ t => Except.ok t)
    []).2.1 (Or.inl rfl)
